import Mathlib

/-!
Verification of the quiz-solving agent repository (agent.py, tools.py,
main.py): a LangGraph reasoning loop with a router, a file-extraction
tool, and a FastAPI task server.  The Python functions are shallowly
embedded as executable Lean definitions and the specification's claims
are settled as theorems about them.
-/

namespace TDSAgent

/-! ## Data model: messages (agent.py)

A conversation message, as inspected by `route` in src/agent.py.  The
router reads two things off the last message: its `tool_calls` (absent,
or a possibly-empty list) and its `content` (a plain string, a
list-of-parts where each part is a dict whose "text" field may be
missing, or some other value). -/

/-- Python's `str.strip()` with no argument: remove leading and
trailing whitespace characters (stated on the string's code points, as
Python slices and compares do). -/
def pyStrip (s : String) : String :=
  (((s.data.dropWhile Char.isWhitespace).reverse.dropWhile Char.isWhitespace).reverse).asString

/-- Python's `str.endswith(suffix)`: the suffix's code points end the
string's code points. -/
def pyEndsWith (s suffix : String) : Bool :=
  suffix.data.isSuffixOf s.data

structure ToolCall where
  callId : String
  name : String
deriving DecidableEq, Repr

/-- The `content` attribute of a message.  `str` is a plain string;
`parts` is a list of part dicts, each modelled by its optional "text"
field (`Option.none` when the dict has no "text" key); `other` covers
any other value (e.g. Python `None`), for which both `isinstance`
checks in `route` fail. -/
inductive Content where
  | str (s : String)
  | parts (l : List (Option String))
  | other
deriving DecidableEq, Repr

structure Message where
  tool_calls : Option (List ToolCall)
  content : Content
deriving DecidableEq, Repr

/-- Python truthiness of the `tool_calls` value as used by
`if tool_calls:` — `None` and the empty list are falsy, a non-empty
list is truthy. -/
def truthyCalls : Option (List ToolCall) → Bool
  | some (_ :: _) => true
  | _ => false

/-- The destinations the conditional edge function can return:
the tool-execution node, graph termination, or the reasoning node. -/
inductive Route where
  | tools
  | terminate
  | agent
deriving DecidableEq, Repr

/-- Exceptions `route` can raise on list-shaped content:
`content[0]` on an empty list raises IndexError, and
`.strip()` on the `None` returned by `.get("text")` raises
AttributeError. -/
inductive RouteErr where
  | indexError
  | attributeError
deriving DecidableEq, Repr

deriving instance DecidableEq for Except

/-- `route` from src/agent.py, the conditional edge function.  Checks
tool calls first; then, for string content, compares the stripped text
with "END"; for list content, strips the first part's "text" field and
compares with "END"; otherwise loops back to the agent node.  The two
exceptional paths of the list branch surface as `Except.error`. -/
def route (last : Message) : Except RouteErr Route :=
  if truthyCalls last.tool_calls then Except.ok Route.tools
  else
    match last.content with
    | Content.str s =>
      if pyStrip s = "END" then Except.ok Route.terminate else Except.ok Route.agent
    | Content.parts l =>
      match l with
      | [] => Except.error RouteErr.indexError
      | p :: _ =>
        match p with
        | some t =>
          if pyStrip t = "END" then Except.ok Route.terminate else Except.ok Route.agent
        | Option.none => Except.error RouteErr.attributeError
    | Content.other => Except.ok Route.agent

/-! ## Loop driver (agent.py `run_agent` / `app.invoke`) -/

/-- Outcome of a graph run: normal termination (with the number of
reasoning passes performed), the recursion-limit failure, or an
exception escaping from `route`. -/
inductive RunOutcome where
  | terminated (passes : Nat)
  | iterationLimitExceeded
  | routerError (e : RouteErr)
deriving DecidableEq, Repr

/-- The `recursion_limit` passed to `app.invoke` in `run_agent`
(src/agent.py). -/
def recursionLimit : Nat := 200

/-- Modelled from the spec: the iteration loop itself lives in the
langgraph library (`app.invoke`), which is not part of this repository;
spec §4.4 describes it as "run Reasoning Step → append its
AssistantMessage → run Router on that message → {Tool Execution then
loop} | {loop} | {TERMINATE}" with "a global iteration ceiling (≈200
reasoning passes)" whose excess "transitions to FAILED with
IterationLimitExceeded".  The reasoning step is abstracted as an oracle
giving the assistant message of each pass; `fuel` is the remaining
passes, `i` the index of the next pass.  Tool execution only feeds
results back to the reasoning node (edge "tools" → "agent" in the
graph), so both non-terminal routes continue with the next pass. -/
def loopDriver (oracle : Nat → Message) : Nat → Nat → RunOutcome
  | 0, _ => RunOutcome.iterationLimitExceeded
  | fuel + 1, i =>
    match route (oracle i) with
    | Except.error e => RunOutcome.routerError e
    | Except.ok Route.terminate => RunOutcome.terminated (i + 1)
    | Except.ok _ => loopDriver oracle fuel (i + 1)

/-- The graph run started by `run_agent`, with the ceiling configured in
src/agent.py. -/
def invokeGraph (oracle : Nat → Message) : RunOutcome :=
  loopDriver oracle recursionLimit 0

/-- The return value of `run_agent` from src/agent.py: the function
invokes the graph, prints a message, and ends without a `return`
statement, so in Python it returns `None` whatever the run produced
(despite its `-> str` annotation). -/
def run_agent (oracle : Nat → Message) (url : String) : Option String :=
  let _ := invokeGraph oracle
  let _ := url
  Option.none

/-! ## File extractor (tools.py `process_file_from_url`) -/

/-- The downloaded resource, abstracted at the boundary of the external
libraries: for a PDF, `pdfPages` is the text PyPDF2 extracts from each
page in order; for a CSV, `csvRows` is the list of parsed data rows. -/
structure Download where
  pdfPages : List String
  csvRows : List (List String)
deriving Repr

/-- Python string slicing `s[:n]`: the first `n` characters
(code points) of `s`. -/
def strTake (s : String) (n : Nat) : String :=
  (s.data.take n).asString

/-- Marker-free PDF text assembled by the loop in
`process_file_from_url`: `for i, page in enumerate(pdf_reader.pages):
if i > 5: break; text += page.extract_text()` — the break fires at
index 6, so exactly the pages of index 0..5 contribute. -/
def pdfText (pages : List String) : String :=
  String.join (pages.take 6)

/-- Markdown rendering of the tabular head, standing in for
`df.head(20).to_markdown()`; only the fact that it is a function of the
first 20 rows matters to the claims. -/
def markdownTable (rows : List (List String)) : String :=
  String.intercalate "\n" (rows.map (fun r => String.intercalate " | " r))

/-- `process_file_from_url` from src/tools.py (happy path, download
succeeded and produced `resp`): dispatches on the URL's literal suffix;
PDF gives the first 4000 characters of the text of at most the first 6
pages behind a marker; CSV gives the first 20 rows as a table;
everything else gives the unsupported-format error string. -/
def process_file_from_url (file_url : String) (resp : Download) : String :=
  if pyEndsWith file_url ".pdf" then
    "PDF Content: " ++ strTake (pdfText resp.pdfPages) 4000
  else if pyEndsWith file_url ".csv" then
    "CSV Data Head:\n" ++ markdownTable (resp.csvRows.take 20)
  else
    "Error: Unsupported file format. Only PDF/CSV supported."

/-! ## Task server (main.py `solve` / `history`) -/

/-- One entry of `QUIZ_LOGS`; the timestamp and result fields do not
matter to the claims and are kept as the status string plus identity
fields. -/
structure LogEntry where
  entryId : Nat
  url : String
  status : String
deriving DecidableEq, Repr

/-- The server's mutable module state: the `TASK_ID` counter and the
`QUIZ_LOGS` list. -/
structure ServerState where
  task_id : Nat
  quiz_logs : List LogEntry
deriving DecidableEq, Repr

/-- The state at process start: `TASK_ID = 0`, `QUIZ_LOGS = []`. -/
def initialState : ServerState :=
  { task_id := 0, quiz_logs := [] }

/-- A POST /quiz request body as `solve` sees it: either
`request.json()` raised, or it produced a dict whose "url" and
"secret" keys are each present (a string) or absent. -/
inductive ReqBody where
  | invalidJson
  | json (url : Option String) (secret : Option String)
deriving DecidableEq, Repr

/-- The HTTP response of `solve`: 400 for bad JSON or missing fields,
403 for a wrong secret, 200 with the task id otherwise. -/
inductive SolveResp where
  | badRequest
  | forbidden
  | ok (task_id : Nat)
deriving DecidableEq, Repr

/-- `solve` from src/main.py.  `expected` is the module-level `SECRET`.
Mirrors the Python control flow: JSON parse failure → 400; `not url or
not secret` (absent key or empty string, both falsy) → 400;
`secret != SECRET` → 403; otherwise increment `TASK_ID`, append a
"queued" log entry, and answer 200 with the new id. -/
def solve (expected : String) (body : ReqBody) (st : ServerState) :
    SolveResp × ServerState :=
  match body with
  | ReqBody.invalidJson => (SolveResp.badRequest, st)
  | ReqBody.json url secret =>
    match url, secret with
    | some u, some s =>
      if u.isEmpty || s.isEmpty then (SolveResp.badRequest, st)
      else if s = expected then
        let tid := st.task_id + 1
        (SolveResp.ok tid,
         { task_id := tid,
           quiz_logs := st.quiz_logs ++ [{ entryId := tid, url := u, status := "queued" }] })
      else (SolveResp.forbidden, st)
    | _, _ => (SolveResp.badRequest, st)

/-- Whether `solve` accepts a request body (reaches the 200 branch). -/
def accepted (expected : String) : ReqBody → Bool
  | ReqBody.json (some u) (some s) => !u.isEmpty && !s.isEmpty && s == expected
  | _ => false

/-- The url of an accepted request (default for the other shapes, which
`accepted` rules out). -/
def reqUrl : ReqBody → String
  | ReqBody.json (some u) _ => u
  | _ => ""

/-- A sequence of POST /quiz requests processed in submission order
against the shared module state. -/
def processRequests (expected : String) (reqs : List ReqBody) (st : ServerState) :
    ServerState :=
  reqs.foldl (fun s r => (solve expected r s).2) st

/-- `history` from src/main.py: the count and the log list in insertion
order (timestamp formatting dropped). -/
def history (st : ServerState) : Nat × List LogEntry :=
  (st.quiz_logs.length, st.quiz_logs)

/-! ## Theorems -/

/-- C1: a last message carrying a non-empty list of tool calls is routed
to tool execution, whatever its content — including content whose
trimmed text is exactly "END". -/
theorem C1_tool_calls_take_priority (m : Message) (l : List ToolCall)
    (h : m.tool_calls = some l) (hne : l ≠ []) :
    route m = Except.ok Route.tools := by
  obtain ⟨c, cs, rfl⟩ : ∃ c cs, l = c :: cs := by
    cases l with
    | nil => exact absurd rfl hne
    | cons c cs => exact ⟨c, cs, rfl⟩
  simp [route, truthyCalls, h]

theorem C1_tool_calls_take_priority_witness :
    ({ tool_calls := some [{ callId := "1", name := "get_rendered_html" }],
       content := Content.str "END" } : Message).tool_calls
        = some [{ callId := "1", name := "get_rendered_html" }]
    ∧ ([({ callId := "1", name := "get_rendered_html" } : ToolCall)] : List ToolCall) ≠ []
    ∧ route { tool_calls := some [{ callId := "1", name := "get_rendered_html" }],
              content := Content.str "END" } = Except.ok Route.tools :=
  ⟨rfl, by decide,
   C1_tool_calls_take_priority _ [{ callId := "1", name := "get_rendered_html" }] rfl (by decide)⟩

/-- C2: for a last message with no tool calls and string content, the
router terminates exactly when the content stripped of surrounding
whitespace equals the literal "END" (case-sensitively); any other
string loops back to the reasoning node. -/
theorem C2_terminal_token_exact (m : Message) (s : String)
    (hc : m.content = Content.str s)
    (h : m.tool_calls = Option.none ∨ m.tool_calls = some []) :
    (route m = Except.ok Route.terminate ↔ pyStrip s = "END")
    ∧ (pyStrip s ≠ "END" → route m = Except.ok Route.agent) := by
  have hf : truthyCalls m.tool_calls = false := by
    rcases h with h | h <;> simp [truthyCalls, h]
  constructor
  · constructor
    · intro hr
      by_contra hne
      simp [route, hf, hc, hne] at hr
    · intro he
      simp [route, hf, hc, he]
  · intro hne
    simp [route, hf, hc, hne]

theorem C2_terminal_token_exact_witness :
    route { tool_calls := Option.none, content := Content.str " END " }
      = Except.ok Route.terminate
    ∧ route { tool_calls := Option.none, content := Content.str "end" }
      = Except.ok Route.agent :=
  ⟨(C2_terminal_token_exact _ " END " rfl (Or.inl rfl)).1.mpr (by decide),
   (C2_terminal_token_exact _ "end" rfl (Or.inl rfl)).2 (by decide)⟩

/-- C3 (counterexample): a last message with no tool calls whose content
is the empty list of parts makes `route` raise an IndexError
(`content[0]` on an empty list) instead of treating the text as empty
and routing back to the reasoning node. -/
theorem C3_counterexample :
    route { tool_calls := Option.none, content := Content.parts [] }
      = Except.error RouteErr.indexError
    ∧ route { tool_calls := Option.none, content := Content.parts [] }
      ≠ Except.ok Route.agent := by
  decide

/-- C3 (amended): for list-of-parts content the router inspects only
the first part's "text" field; when the list is non-empty and the field
is present it decides on that text, but an empty list raises an
IndexError and a first part without a "text" field raises an
AttributeError — extraction failure is not converted to the empty
string. -/
theorem C3_parts_first_element (m : Message) (l : List (Option String))
    (hc : m.content = Content.parts l)
    (h : m.tool_calls = Option.none ∨ m.tool_calls = some []) :
    (∀ t rest, l = some t :: rest →
      route m = Except.ok (if pyStrip t = "END" then Route.terminate else Route.agent))
    ∧ (l = [] → route m = Except.error RouteErr.indexError)
    ∧ (∀ rest, l = Option.none :: rest →
      route m = Except.error RouteErr.attributeError) := by
  have hf : truthyCalls m.tool_calls = false := by
    rcases h with h | h <;> simp [truthyCalls, h]
  refine ⟨?_, ?_, ?_⟩
  · intro t rest hl
    subst hl
    by_cases he : pyStrip t = "END" <;> simp [route, hf, hc, he]
  · intro hl
    subst hl
    simp [route, hf, hc]
  · intro rest hl
    subst hl
    simp [route, hf, hc]

theorem C3_parts_first_element_witness :
    route { tool_calls := Option.none, content := Content.parts [some " END ", some "later"] }
      = Except.ok (if pyStrip " END " = "END" then Route.terminate else Route.agent)
    ∧ route { tool_calls := Option.none, content := Content.parts [Option.none] }
      = Except.error RouteErr.attributeError :=
  ⟨(C3_parts_first_element _ [some " END ", some "later"] rfl (Or.inl rfl)).1 " END "
      [some "later"] rfl,
   (C3_parts_first_element _ [Option.none] rfl (Or.inl rfl)).2.2 [] rfl⟩

/-- C8: a last message whose `tool_calls` attribute is the empty list
routes exactly like one with no tool calls at all — Python's
`if tool_calls:` is false on `[]` — and in particular never reaches the
tool-execution node. -/
theorem C8_empty_tool_calls_like_none (m : Message) (h : m.tool_calls = some []) :
    route m = route { m with tool_calls := Option.none }
    ∧ route m ≠ Except.ok Route.tools := by
  obtain ⟨tc, c⟩ := m
  simp only at h
  subst h
  refine ⟨rfl, ?_⟩
  cases c with
  | str s =>
    by_cases he : pyStrip s = "END" <;> simp [route, truthyCalls, he]
  | parts l =>
    match l with
    | [] => simp [route, truthyCalls]
    | Option.none :: rest => simp [route, truthyCalls]
    | some t :: rest =>
      by_cases he : pyStrip t = "END" <;> simp [route, truthyCalls, he]
  | other => simp [route, truthyCalls]

theorem C8_empty_tool_calls_like_none_witness :
    route { tool_calls := some [], content := Content.str "END" }
      = route { tool_calls := Option.none, content := Content.str "END" }
    ∧ route { tool_calls := some [], content := Content.str "END" }
      ≠ Except.ok Route.tools :=
  C8_empty_tool_calls_like_none
    { tool_calls := some [], content := Content.str "END" } rfl

/-- C4: a run whose reasoning outputs never satisfy the terminal
condition (every pass routes to the tools node or back to the agent
node, never to termination) halts with the iteration-limit failure at
the configured ceiling of 200 reasoning passes instead of looping
forever. -/
theorem C4_iteration_ceiling (oracle : Nat → Message)
    (h : ∀ i, route (oracle i) = Except.ok Route.tools
            ∨ route (oracle i) = Except.ok Route.agent) :
    invokeGraph oracle = RunOutcome.iterationLimitExceeded ∧ recursionLimit = 200 := by
  refine ⟨?_, rfl⟩
  have key : ∀ fuel i, loopDriver oracle fuel i = RunOutcome.iterationLimitExceeded := by
    intro fuel
    induction fuel with
    | zero => intro i; rfl
    | succ n ih =>
      intro i
      rcases h i with hr | hr <;> simp [loopDriver, hr, ih]
  exact key recursionLimit 0

theorem C4_iteration_ceiling_witness :
    invokeGraph (fun _ => { tool_calls := Option.none, content := Content.str "keep reasoning" })
      = RunOutcome.iterationLimitExceeded ∧ recursionLimit = 200 :=
  C4_iteration_ceiling _ (fun _ => Or.inr (by decide))

/-- C5: for a URL ending in ".pdf" the extractor returns the marker
"PDF Content: " followed by at most the first 4000 characters of the
text of at most the first 6 pages; the result never depends on pages
beyond the 6th, and the extracted portion is at most 4000 characters
long. -/
theorem C5_pdf_page_and_char_bounds (url : String) (resp : Download)
    (h : pyEndsWith url ".pdf" = true) :
    process_file_from_url url resp
      = "PDF Content: " ++ strTake (pdfText resp.pdfPages) 4000
    ∧ (strTake (pdfText resp.pdfPages) 4000).length ≤ 4000
    ∧ (∀ resp2 : Download, resp2.pdfPages.take 6 = resp.pdfPages.take 6 →
        process_file_from_url url resp2 = process_file_from_url url resp) := by
  refine ⟨by simp [process_file_from_url, h], ?_, ?_⟩
  · show ((pdfText resp.pdfPages).data.take 4000).asString.length ≤ 4000
    show ((pdfText resp.pdfPages).data.take 4000).length ≤ 4000
    exact List.length_take_le _ _
  · intro resp2 h2
    simp [process_file_from_url, h, pdfText, h2]

theorem C5_pdf_page_and_char_bounds_witness :
    process_file_from_url "http://x/doc.pdf"
        { pdfPages := ["a", "b", "c", "d", "e", "f", "ignored7"], csvRows := [] }
      = "PDF Content: "
        ++ strTake (pdfText ["a", "b", "c", "d", "e", "f", "ignored7"]) 4000
    ∧ (strTake (pdfText ["a", "b", "c", "d", "e", "f", "ignored7"]) 4000).length ≤ 4000 :=
  ⟨(C5_pdf_page_and_char_bounds "http://x/doc.pdf"
      { pdfPages := ["a", "b", "c", "d", "e", "f", "ignored7"], csvRows := [] }
      (by decide)).1,
   (C5_pdf_page_and_char_bounds "http://x/doc.pdf"
      { pdfPages := ["a", "b", "c", "d", "e", "f", "ignored7"], csvRows := [] }
      (by decide)).2.1⟩

/-- C6: at the failing input, `run_agent` returns Python `None` — the
function has no return statement — so the caller that stores
`result = run_agent(url)` records no history or final result, contrary
to its own `-> str` annotation and the spec. -/
theorem C6_run_agent_returns_none :
    run_agent (fun _ => { tool_calls := Option.none, content := Content.str "END" })
      "http://example.test/q1" = Option.none :=
  rfl

/-- C9: the extractor dispatches solely on the URL suffix — any URL
ending in neither ".pdf" nor ".csv" (e.g. a PDF link with a query
string) yields the unsupported-format error string, whatever the
downloaded content actually is. -/
theorem C9_suffix_only_dispatch (url : String) (r r2 : Download)
    (hp : pyEndsWith url ".pdf" = false) (hc : pyEndsWith url ".csv" = false) :
    process_file_from_url url r
      = "Error: Unsupported file format. Only PDF/CSV supported."
    ∧ process_file_from_url url r = process_file_from_url url r2 := by
  constructor <;> simp [process_file_from_url, hp, hc]

theorem C9_suffix_only_dispatch_witness :
    process_file_from_url "http://x/a.pdf?dl=1" { pdfPages := ["real pdf text"], csvRows := [] }
      = "Error: Unsupported file format. Only PDF/CSV supported."
    ∧ process_file_from_url "http://x/a.pdf?dl=1" { pdfPages := ["real pdf text"], csvRows := [] }
      = process_file_from_url "http://x/a.pdf?dl=1" { pdfPages := [], csvRows := [["r"]] } :=
  C9_suffix_only_dispatch "http://x/a.pdf?dl=1"
    { pdfPages := ["real pdf text"], csvRows := [] }
    { pdfPages := [], csvRows := [["r"]] } (by decide) (by decide)

/-- Effect of one `solve` call on the module state: an accepted request
increments `TASK_ID` and appends one "queued" entry carrying the new
id; any rejected request (bad JSON, missing or empty field, wrong
secret) leaves the state untouched. -/
theorem solve_state (expected : String) (r : ReqBody) (st : ServerState) :
    (solve expected r st).2 =
      if accepted expected r then
        { task_id := st.task_id + 1,
          quiz_logs := st.quiz_logs
            ++ [{ entryId := st.task_id + 1, url := reqUrl r, status := "queued" }] }
      else st := by
  cases r with
  | invalidJson => rfl
  | json url secret =>
    cases url with
    | none => cases secret <;> rfl
    | some u =>
      cases secret with
      | none => rfl
      | some s =>
        by_cases hu : u.isEmpty
        · simp [solve, accepted, hu]
        · by_cases hs : s.isEmpty
          · simp [solve, accepted, hu, hs]
          · by_cases he : s = expected
            · subst he
              simp [solve, accepted, reqUrl, hu, hs]
            · simp [solve, accepted, reqUrl, hu, hs, he]

/-- C7 (counterexample): a request whose JSON parses and whose secret
matches the expected value but which omits `url` receives 400 (Bad
Request), not the 200-with-task-id the claim requires for a matching
secret, and not 403 either. -/
theorem C7_counterexample :
    (solve "s3cret" (ReqBody.json Option.none (some "s3cret")) initialState).1
      = SolveResp.badRequest
    ∧ (solve "s3cret" (ReqBody.json Option.none (some "s3cret")) initialState).1
      ≠ SolveResp.ok 1
    ∧ (solve "s3cret" (ReqBody.json Option.none (some "s3cret")) initialState).1
      ≠ SolveResp.forbidden := by
  decide

/-- C7 (amended): among POST /quiz requests whose JSON parses and which
supply a non-empty url and a non-empty secret, the server answers 200
with the next task id exactly when the secret equals the expected
value, and 403 otherwise; a request missing the url is answered 400
even when its secret matches. -/
theorem C7_secret_gate (expected u s : String) (st : ServerState)
    (hu : u.isEmpty = false) (hs : s.isEmpty = false) :
    ((solve expected (ReqBody.json (some u) (some s)) st).1
        = SolveResp.ok (st.task_id + 1) ↔ s = expected)
    ∧ (s ≠ expected →
        (solve expected (ReqBody.json (some u) (some s)) st).1 = SolveResp.forbidden)
    ∧ (solve expected (ReqBody.json Option.none (some s)) st).1 = SolveResp.badRequest := by
  by_cases he : s = expected
  · subst he
    exact ⟨by simp [solve, hu, hs], fun hne => absurd rfl hne, rfl⟩
  · refine ⟨?_, fun _ => by simp [solve, hu, hs, he], rfl⟩
    simp [solve, hu, hs, he]

theorem C7_secret_gate_witness :
    ((solve "s3cret" (ReqBody.json (some "http://q") (some "s3cret")) initialState).1
        = SolveResp.ok (initialState.task_id + 1) ↔ ("s3cret" : String) = "s3cret")
    ∧ (("wrong" : String) ≠ "s3cret" →
        (solve "s3cret" (ReqBody.json (some "http://q") (some "wrong")) initialState).1
          = SolveResp.forbidden) :=
  ⟨(C7_secret_gate "s3cret" "http://q" "s3cret" initialState (by decide) (by decide)).1,
   (C7_secret_gate "s3cret" "http://q" "wrong" initialState (by decide) (by decide)).2.1⟩

/-- Cumulative effect of a request sequence, for any starting state:
the counter advances by the number of accepted requests, and the log
gains exactly one entry per accepted request, in submission order, with
consecutive ids continuing from the starting counter. -/
theorem processRequests_cumulative (expected : String) (reqs : List ReqBody) :
    ∀ st : ServerState,
      (processRequests expected reqs st).task_id
          = st.task_id + (reqs.filter (accepted expected)).length
      ∧ (processRequests expected reqs st).quiz_logs.map LogEntry.entryId
          = st.quiz_logs.map LogEntry.entryId
            ++ List.range' (st.task_id + 1) (reqs.filter (accepted expected)).length
      ∧ (processRequests expected reqs st).quiz_logs.map LogEntry.url
          = st.quiz_logs.map LogEntry.url ++ (reqs.filter (accepted expected)).map reqUrl := by
  induction reqs with
  | nil => intro st; simp [processRequests]
  | cons r rs ih =>
    intro st
    have hstep : processRequests expected (r :: rs) st
        = processRequests expected rs (solve expected r st).2 := rfl
    rw [hstep, solve_state expected r st]
    by_cases ha : accepted expected r
    · rw [if_pos ha]
      obtain ⟨h1, h2, h3⟩ :=
        ih { task_id := st.task_id + 1,
             quiz_logs := st.quiz_logs
               ++ [{ entryId := st.task_id + 1, url := reqUrl r, status := "queued" }] }
      refine ⟨?_, ?_, ?_⟩
      · rw [h1]; simp [List.filter_cons, ha]; omega
      · rw [h2]; simp [List.filter_cons, ha, List.range'_succ]
      · rw [h3]; simp [List.filter_cons, ha]
    · rw [if_neg ha]
      obtain ⟨h1, h2, h3⟩ := ih st
      have hfil : (r :: rs).filter (accepted expected) = rs.filter (accepted expected) := by
        simp [List.filter_cons, ha]
      rw [hfil]
      exact ⟨h1, h2, h3⟩

/-- C10: starting from the initial state, the accepted requests receive
the consecutive ids 1, 2, 3, … in submission order (each one greater
than the previous, hence unique and strictly increasing), the log holds
exactly one entry per accepted request in submission order, `history`
reports a count equal to the number of entries, and a rejected request
leaves the state — counter and log — unchanged. -/
theorem C10_ids_unique_and_ordered (expected : String) (reqs : List ReqBody) :
    (processRequests expected reqs initialState).quiz_logs.map LogEntry.entryId
        = List.range' 1 (reqs.filter (accepted expected)).length
    ∧ (processRequests expected reqs initialState).quiz_logs.map LogEntry.url
        = (reqs.filter (accepted expected)).map reqUrl
    ∧ (history (processRequests expected reqs initialState)).1
        = (processRequests expected reqs initialState).quiz_logs.length
    ∧ (∀ r st, accepted expected r = false → (solve expected r st).2 = st) := by
  obtain ⟨h1, h2, h3⟩ := processRequests_cumulative expected reqs initialState
  refine ⟨?_, ?_, rfl, ?_⟩
  · simpa [initialState] using h2
  · simpa [initialState] using h3
  · intro r st hr
    rw [solve_state expected r st, if_neg (by simp [hr])]

theorem C10_ids_unique_and_ordered_witness :
    (processRequests "s"
        [ReqBody.json (some "http://q1") (some "s"),
         ReqBody.json (some "http://q2") (some "wrong"),
         ReqBody.invalidJson,
         ReqBody.json Option.none (some "s"),
         ReqBody.json (some "http://q3") (some "s")]
        initialState).quiz_logs.map LogEntry.entryId
      = List.range' 1
          (([ReqBody.json (some "http://q1") (some "s"),
             ReqBody.json (some "http://q2") (some "wrong"),
             ReqBody.invalidJson,
             ReqBody.json Option.none (some "s"),
             ReqBody.json (some "http://q3") (some "s")].filter (accepted "s")).length)
    ∧ (solve "s" ReqBody.invalidJson initialState).2 = initialState :=
  ⟨(C10_ids_unique_and_ordered "s"
      [ReqBody.json (some "http://q1") (some "s"),
       ReqBody.json (some "http://q2") (some "wrong"),
       ReqBody.invalidJson,
       ReqBody.json Option.none (some "s"),
       ReqBody.json (some "http://q3") (some "s")]).1,
   (C10_ids_unique_and_ordered "s" []).2.2.2 ReqBody.invalidJson initialState rfl⟩

end TDSAgent
